/-
Verification of the blackbird SFU session/participant registry.

The registry consists of two handler variants implementing the same
`SessionHandler` result/error contract:

  * `MockSessionHandler`  (src/sfu/mocksessionhandler.go), which validates
    session ids with the google/uuid library's `Parse` and keeps a
    `map[string]*RegisteredSession`;
  * `WebRtcSessionHandler` (src/sfu/sessionutil.go), which validates
    parameters through the `check` methods of the parameter records
    (see the `sfu` types file) built on `isId` / `isNotBlank`
    (src/sfu/preconditions.go), and keeps a `map[string]*webRtcSession`.

Go maps are embedded as association lists (`GoMap`); a `nil` map and an
empty map behave identically for lookup, so both are the empty list.
Identifier and timestamp generation (`generateSessionId`, `time.Now`) are
nondeterministic in the source, so every operation that generates takes
the generated string(s) as explicit oracle arguments.  An operation that
can panic in Go (a nil-pointer dereference) returns `Option`, with `none`
standing for the panic.
-/
import Mathlib

set_option autoImplicit false

/-! ## Go map model -/

/-- A Go `map[string]V`, embedded as an association list. -/
abbrev GoMap (V : Type) := List (String × V)

/-- Go map read `m[k]`: the value stored at `k`, if any. -/
def mapGet {V : Type} : GoMap V → String → Option V
  | [], _ => none
  | e :: t, k => if e.1 == k then some e.2 else mapGet t k

/-- Go map write `m[k] = v`: replaces the binding of `k`, or appends it. -/
def mapPut {V : Type} : GoMap V → String → V → GoMap V
  | [], k, v => [(k, v)]
  | e :: t, k, v => if e.1 == k then (k, v) :: t else e :: mapPut t k v

/-- Go `delete(m, k)`. -/
def mapDel {V : Type} : GoMap V → String → GoMap V
  | [], _ => []
  | e :: t, k => if e.1 == k then mapDel t k else e :: mapDel t k

/-- The values of a Go map (iteration order is modelled as list order). -/
def mapVals {V : Type} (m : GoMap V) : List V :=
  m.map (fun e => e.2)

theorem mapGet_mapPut_self {V : Type} (m : GoMap V) (k : String) (v : V) :
    mapGet (mapPut m k v) k = some v := by
  induction m with
  | nil => simp [mapGet, mapPut]
  | cons e t ih =>
    by_cases h : e.1 == k
    · simp [mapGet, mapPut, h]
    · simp [mapGet, mapPut, h, ih]

theorem mapGet_mapPut_other {V : Type} (m : GoMap V) (k k' : String) (v : V)
    (h : k' ≠ k) : mapGet (mapPut m k v) k' = mapGet m k' := by
  induction m with
  | nil =>
    simp [mapGet, mapPut]
    intro hk
    exact absurd hk.symm h
  | cons e t ih =>
    by_cases he : e.1 == k
    · have hek : e.1 = k := by simpa using he
      simp [mapGet, mapPut, he, hek, Ne.symm h]
    · simp only [mapPut, he, if_false, mapGet]
      by_cases he' : e.1 == k'
      · simp [he']
      · simp [he', ih]

/-! ## Domain records (the `sfu` package's types file) -/

/-- `Session` holds all information related to a single live view session. -/
structure Session where
  name : String
  id : String
  creationDateTime : String
deriving DecidableEq

/-- `Participant` holds all information related to a single participant of a
live view session. -/
structure Participant where
  name : String
  id : String
  sessionId : String
  creationDateTime : String
deriving DecidableEq

structure CreateSessionParams where
  name : String
deriving DecidableEq

structure CreateSessionResult where
  session : Option Session
  errors : List String
deriving DecidableEq

structure GetSessionParams where
  id : String
deriving DecidableEq

structure GetSessionResult where
  session : Option Session
  errors : List String
deriving DecidableEq

structure DeleteSessionParams where
  id : String
deriving DecidableEq

structure DeleteSessionResult where
  session : Option Session
  errors : List String
deriving DecidableEq

structure AddParticipantParams where
  sessionId : String
  name : String
deriving DecidableEq

structure AddParticipantResult where
  participant : Option Participant
  errors : List String
deriving DecidableEq

structure GetParticipantParams where
  sessionId : String
  participantId : String
deriving DecidableEq

structure GetParticipantResult where
  participant : Option Participant
  errors : List String
deriving DecidableEq

structure UpdateParticipantParams where
  sessionId : String
  participantId : String
  name : String
deriving DecidableEq

structure UpdateParticipantResult where
  participant : Option Participant
  errors : List String
deriving DecidableEq

structure DeleteParticipantParams where
  sessionId : String
  participantId : String
deriving DecidableEq

structure DeleteParticipantResult where
  participant : Option Participant
  errors : List String
deriving DecidableEq

structure GetParticipantsParams where
  sessionId : String
deriving DecidableEq

structure GetParticipantsResult where
  participants : List Participant
  errors : List String
deriving DecidableEq

/-! ## Validation (src/sfu/preconditions.go and src/sfu/sessionutils.go) -/

/-- `IdLen` from src/sfu/sessionutil.go. -/
def IdLen : Nat := 10

/-- A whitespace character as trimmed by Go's `strings.TrimSpace` (the
ASCII portion; every input in this development is ASCII). -/
def isSpaceChar (c : Char) : Bool :=
  c == ' ' || c == '\t' || c == '\n' || c == '\r'
    || c == '\x0b' || c == '\x0c'

/-- Go's `strings.TrimSpace`: the value without leading and trailing
whitespace. -/
def trimSpace (s : String) : String :=
  ⟨(((s.data.dropWhile isSpaceChar).reverse.dropWhile isSpaceChar).reverse)⟩

/-- `isNotBlank` (src/sfu/preconditions.go): error when the value is empty
after trimming whitespace. -/
def isNotBlank (n v : String) : Option String :=
  if (trimSpace v).length == 0 then some (n ++ " must not be blank") else none

/-- A character matched by the Go character class `[A-Za-z0-9=+\-]`. -/
def idCharOk (c : Char) : Bool :=
  c.isAlpha || c.isDigit || c == '=' || c == '+' || c == '-'

/-- `isId` (src/sfu/preconditions.go): the value is accepted when its byte
length is `IdLen` and the unanchored regexp `[A-Za-z0-9=+\-]` matches, i.e.
SOME character of the value lies in the class (the regexp is not anchored
and has no quantifier, so it does not require ALL characters to do so). -/
def isId (n v : String) : Option String :=
  if v.utf8ByteSize == IdLen && v.data.any idCharOk then none
  else some (v ++ " must be a valid id")

/-- `checkNotBlank` (src/sfu/sessionutils.go). -/
def checkNotBlank (name : String) : Option String :=
  if (trimSpace name).length == 0 then some "name must not be blank" else none

/-- An ASCII hexadecimal digit. -/
def isHexChar (c : Char) : Bool :=
  c.isDigit || (decide ('a' ≤ c) && decide (c ≤ 'f'))
    || (decide ('A' ≤ c) && decide (c ≤ 'F'))

/-- Position `i` of a canonical 8-4-4-4-12 UUID: a dash at indices
8, 13, 18 and 23, a hexadecimal digit elsewhere. -/
def uuidCharAtOk (i : Nat) (c : Char) : Bool :=
  if i == 8 || i == 13 || i == 18 || i == 23 then c == '-' else isHexChar c

/-- The canonical 36-character `xxxxxxxx-xxxx-xxxx-xxxx-xxxxxxxxxxxx` form. -/
def uuidCanonicalOk (cs : List Char) : Bool :=
  cs.length == 36 && cs.enum.all (fun ic => uuidCharAtOk ic.1 ic.2)

/-- Modelled from the spec: the mock validates session ids with the
google/uuid library's `Parse` (not part of this repository).  `Parse`
accepts the canonical 36-character form, the `urn:uuid:`-prefixed form,
the braced form and the plain 32-hex-digit form, and rejects every other
string. -/
def uuidParseOk (s : String) : Bool :=
  let cs := s.data
  if cs.length == 36 then uuidCanonicalOk cs
  else if cs.length == 45 then
    decide ((cs.take 9) = "urn:uuid:".data) && uuidCanonicalOk (cs.drop 9)
  else if cs.length == 38 then
    decide (cs.head? = some '{') && decide (cs.getLast? = some '}')
      && uuidCanonicalOk ((cs.drop 1).take 36)
  else if cs.length == 32 then cs.all isHexChar
  else false

/-- `checkSessionId` (src/sfu/sessionutils.go): returns the error of
`uuid.Parse` when the id does not parse as a UUID.  The error strings are
modelled from the library's documented messages. -/
def checkSessionId (id : String) : Option String :=
  if uuidParseOk id then none
  else if id.data.length == 32 || id.data.length == 36
      || id.data.length == 38 || id.data.length == 45 then
    some "invalid UUID format"
  else some ("invalid UUID length: " ++ toString id.data.length)

/-! ## Parameter `check` methods (the `sfu` types file) -/

/-- `CreateSessionParams.check`: collects the errors of all fields. -/
def CreateSessionParams.check (p : CreateSessionParams) : List String :=
  (isNotBlank "name" p.name).toList

/-- `GetSessionParams.check`. -/
def GetSessionParams.check (p : GetSessionParams) : List String :=
  (isId "id" p.id).toList

/-- `DeleteSessionParams.check`. -/
def DeleteSessionParams.check (p : DeleteSessionParams) : List String :=
  (isId "id" p.id).toList

/-- `AddParticipantParams.check`. -/
def AddParticipantParams.check (p : AddParticipantParams) : List String :=
  (isId "sessionId" p.sessionId).toList ++ (isNotBlank "name" p.name).toList

/-- `GetParticipantParams.check`. -/
def GetParticipantParams.check (p : GetParticipantParams) : List String :=
  (isId "sessionId" p.sessionId).toList
    ++ (isId "participantId" p.participantId).toList

/-- `UpdateParticipantParams.check`. -/
def UpdateParticipantParams.check (p : UpdateParticipantParams) : List String :=
  (isId "sessionId" p.sessionId).toList
    ++ (isId "participantId" p.participantId).toList
    ++ (isNotBlank "name" p.name).toList

/-- `DeleteParticipantParams.check`. -/
def DeleteParticipantParams.check (p : DeleteParticipantParams) : List String :=
  (isId "sessionId" p.sessionId).toList
    ++ (isId "participantId" p.participantId).toList

/-- `GetParticipantsParams.check`. -/
def GetParticipantsParams.check (p : GetParticipantsParams) : List String :=
  (isId "sessionId" p.sessionId).toList

/-! ## MockSessionHandler (src/sfu/mocksessionhandler.go)

A `RegisteredSession` embeds a `Session` and a participants map; a `nil`
participants map and an empty one behave identically.  `GetSession` and
`DeleteSession` take the address of the `Session` field of the looked-up
`*RegisteredSession` WITHOUT a nil check, so when a format-valid id is
absent from the store the Go code dereferences a nil pointer and panics;
those two operations therefore return `Option`, with `none` standing for
the panic. -/

structure RegisteredSession where
  session : Session
  participants : GoMap Participant
deriving DecidableEq

/-- The mock handler's `sessions` map (a `nil` map equals the empty one). -/
abbrev MockState := GoMap RegisteredSession

namespace MockSessionHandler

/-- `CreateSession`: rejects a blank name, otherwise registers a new session
under the generated id (`genId`, `now` are the generation oracles). -/
def CreateSession (st : MockState) (genId now : String)
    (p : CreateSessionParams) : CreateSessionResult × MockState :=
  match checkNotBlank p.name with
  | some e => ({ session := none, errors := [e] }, st)
  | none =>
    let s : Session := { name := p.name, id := genId, creationDateTime := now }
    ({ session := some s, errors := [] },
      mapPut st s.id { session := s, participants := [] })

/-- `GetSession`: validates the id with `checkSessionId`, then looks the
session up and unconditionally takes `&registeredSession.Session` — a panic
(`none`) when the session is absent. -/
def GetSession (st : MockState) (p : GetSessionParams) :
    Option (GetSessionResult × MockState) :=
  match checkSessionId p.id with
  | some e => some ({ session := none, errors := [e] }, st)
  | none =>
    match mapGet st p.id with
    | none => none
    | some rs => some ({ session := some rs.session, errors := [] }, st)

/-- `DeleteSession`: like `GetSession`, but also deletes the entry; the
`&registeredSession.Session` dereference panics (`none`) when absent. -/
def DeleteSession (st : MockState) (p : DeleteSessionParams) :
    Option (DeleteSessionResult × MockState) :=
  match checkSessionId p.id with
  | some e => some ({ session := none, errors := [e] }, st)
  | none =>
    match mapGet st p.id with
    | none => none
    | some rs =>
      some ({ session := some rs.session, errors := [] }, mapDel st p.id)

/-- `AddParticipant`: returns on the FIRST failing check (session id, then
name); a missing session is a "does not exist" error; otherwise a new
participant (oracles `genId`, `now`) is stored under its generated id.  The
stored participant's `sessionId` copies the registered session's own id
field. -/
def AddParticipant (st : MockState) (genId now : String)
    (p : AddParticipantParams) : AddParticipantResult × MockState :=
  match checkSessionId p.sessionId with
  | some e => ({ participant := none, errors := [e] }, st)
  | none =>
  match checkNotBlank p.name with
  | some e => ({ participant := none, errors := [e] }, st)
  | none =>
  match mapGet st p.sessionId with
  | none =>
    ({ participant := none,
       errors := ["session " ++ p.sessionId ++ " does not exist"] }, st)
  | some rs =>
    let q : Participant :=
      { sessionId := rs.session.id, id := genId, name := p.name,
        creationDateTime := now }
    let rs2 : RegisteredSession :=
      { rs with participants := mapPut rs.participants q.id q }
    ({ participant := some q, errors := [] }, mapPut st p.sessionId rs2)

/-- `GetParticipant`: performs NO parameter validation; a missing session is
a "does not exist" error; an absent participant is the nil pointer in the
result, with no error. -/
def GetParticipant (st : MockState) (p : GetParticipantParams) :
    GetParticipantResult × MockState :=
  match mapGet st p.sessionId with
  | none =>
    ({ participant := none,
       errors := ["session " ++ p.sessionId ++ " does not exist"] }, st)
  | some rs =>
    ({ participant := mapGet rs.participants p.participantId, errors := [] },
      st)

/-- `UpdateParticipant`: validates only the name; a missing session is a
"does not exist" error; a missing participant is the empty result; otherwise
the participant's name is overwritten in place. -/
def UpdateParticipant (st : MockState) (p : UpdateParticipantParams) :
    UpdateParticipantResult × MockState :=
  match checkNotBlank p.name with
  | some e => ({ participant := none, errors := [e] }, st)
  | none =>
  match mapGet st p.sessionId with
  | none =>
    ({ participant := none,
       errors := ["session " ++ p.sessionId ++ " does not exist"] }, st)
  | some rs =>
  match mapGet rs.participants p.participantId with
  | none => ({ participant := none, errors := [] }, st)
  | some q =>
    let q2 : Participant := { q with name := p.name }
    let rs2 : RegisteredSession :=
      { rs with participants := mapPut rs.participants p.participantId q2 }
    ({ participant := some q2, errors := [] }, mapPut st p.sessionId rs2)

/-- `DeleteParticipant`: performs NO parameter validation; a missing session
is a "does not exist" error; a missing participant is the empty result;
otherwise the entry is deleted (under the found participant's own id
field). -/
def DeleteParticipant (st : MockState) (p : DeleteParticipantParams) :
    DeleteParticipantResult × MockState :=
  match mapGet st p.sessionId with
  | none =>
    ({ participant := none,
       errors := ["session " ++ p.sessionId ++ " does not exist"] }, st)
  | some rs =>
  match mapGet rs.participants p.participantId with
  | none => ({ participant := none, errors := [] }, st)
  | some q =>
    let rs2 : RegisteredSession :=
      { rs with participants := mapDel rs.participants q.id }
    ({ participant := some q, errors := [] }, mapPut st p.sessionId rs2)

/-- `GetParticipants`: no parameter validation; missing session is an error;
otherwise all stored participants (map iteration order modelled as list
order). -/
def GetParticipants (st : MockState) (p : GetParticipantsParams) :
    GetParticipantsResult × MockState :=
  match mapGet st p.sessionId with
  | none =>
    ({ participants := [],
       errors := ["session " ++ p.sessionId ++ " does not exist"] }, st)
  | some rs => ({ participants := mapVals rs.participants, errors := [] }, st)

end MockSessionHandler

/-! ## WebRtcSessionHandler (src/sfu/sessionutil.go)

Every operation first runs the parameter record's `check` method and, when
it reports errors, returns them without touching the store.  Lookups go
through `doActionOnSession`, which runs the action only when the session
exists and reports `false` otherwise; the operations turn that `false` into
a "session ... does not exist" error.  A `webRtcSession` embeds a `Session`
and a participants map of `webRtcParticipant` (a wrapper around
`Participant`, flattened here). -/

structure WebRtcSession where
  session : Session
  participants : GoMap Participant
deriving DecidableEq

/-- The handler's `sessions` map. -/
abbrev WebState := GoMap WebRtcSession

namespace WebRtcSessionHandler

/-- `newSession`: a fresh registered session from the generation oracles. -/
def newSession (genId now : String) (params : CreateSessionParams) :
    WebRtcSession :=
  { session :=
      { id := genId, name := params.name, creationDateTime := now },
    participants := [] }

/-- `CreateSession`. -/
def CreateSession (st : WebState) (genId now : String)
    (params : CreateSessionParams) : CreateSessionResult × WebState :=
  let errs := params.check
  if errs = [] then
    let s := newSession genId now params
    ({ session := some s.session, errors := [] }, mapPut st s.session.id s)
  else ({ session := none, errors := errs }, st)

/-- `GetSession`: an absent session leaves the result's session pointer nil
with no errors. -/
def GetSession (st : WebState) (params : GetSessionParams) :
    GetSessionResult × WebState :=
  let errs := params.check
  if errs = [] then
    match mapGet st params.id with
    | none => ({ session := none, errors := [] }, st)
    | some s => ({ session := some s.session, errors := [] }, st)
  else ({ session := none, errors := errs }, st)

/-- `DeleteSession`: deletes and returns the session when present; an absent
session leaves the result's session pointer nil with no errors. -/
def DeleteSession (st : WebState) (params : DeleteSessionParams) :
    DeleteSessionResult × WebState :=
  let errs := params.check
  if errs = [] then
    match mapGet st params.id with
    | none => ({ session := none, errors := [] }, st)
    | some s =>
      ({ session := some s.session, errors := [] }, mapDel st params.id)
  else ({ session := none, errors := errs }, st)

/-- `newParticipant`: a fresh participant from the generation oracles; its
`sessionId` copies the parameter's session id. -/
def newParticipant (genId now : String) (p : AddParticipantParams) :
    Participant :=
  { id := genId, sessionId := p.sessionId, creationDateTime := now,
    name := p.name }

/-- `AddParticipant`. -/
def AddParticipant (st : WebState) (genId now : String)
    (params : AddParticipantParams) : AddParticipantResult × WebState :=
  let errs := params.check
  if errs = [] then
    let q := newParticipant genId now params
    match mapGet st params.sessionId with
    | none =>
      ({ participant := none,
         errors := ["session " ++ params.sessionId ++ " does not exist"] },
        st)
    | some s =>
      let s2 : WebRtcSession :=
        { s with participants := mapPut s.participants q.id q }
      ({ participant := some q, errors := [] }, mapPut st params.sessionId s2)
  else ({ participant := none, errors := errs }, st)

/-- `GetParticipant`. -/
def GetParticipant (st : WebState) (params : GetParticipantParams) :
    GetParticipantResult × WebState :=
  let errs := params.check
  if errs = [] then
    match mapGet st params.sessionId with
    | none =>
      ({ participant := none,
         errors := ["session " ++ params.sessionId ++ " does not exist"] },
        st)
    | some s =>
      ({ participant := mapGet s.participants params.participantId,
         errors := [] }, st)
  else ({ participant := none, errors := errs }, st)

/-- `UpdateParticipant`: a missing participant under an existing session
leaves the action a no-op (nil participant, no errors). -/
def UpdateParticipant (st : WebState) (params : UpdateParticipantParams) :
    UpdateParticipantResult × WebState :=
  let errs := params.check
  if errs = [] then
    match mapGet st params.sessionId with
    | none =>
      ({ participant := none,
         errors := ["session " ++ params.sessionId ++ " does not exist"] },
        st)
    | some s =>
      match mapGet s.participants params.participantId with
      | none => ({ participant := none, errors := [] }, st)
      | some q =>
        let q2 : Participant := { q with name := params.name }
        let s2 : WebRtcSession :=
          { s with
            participants := mapPut s.participants params.participantId q2 }
        ({ participant := some q2, errors := [] },
          mapPut st params.sessionId s2)
  else ({ participant := none, errors := errs }, st)

/-- `DeleteParticipant`: a missing participant under an existing session
leaves the action a no-op (nil participant, no errors). -/
def DeleteParticipant (st : WebState) (params : DeleteParticipantParams) :
    DeleteParticipantResult × WebState :=
  let errs := params.check
  if errs = [] then
    match mapGet st params.sessionId with
    | none =>
      ({ participant := none,
         errors := ["session " ++ params.sessionId ++ " does not exist"] },
        st)
    | some s =>
      match mapGet s.participants params.participantId with
      | none => ({ participant := none, errors := [] }, st)
      | some q =>
        let s2 : WebRtcSession :=
          { s with
            participants := mapDel s.participants params.participantId }
        ({ participant := some q, errors := [] },
          mapPut st params.sessionId s2)
  else ({ participant := none, errors := errs }, st)

/-- `GetParticipants`. -/
def GetParticipants (st : WebState) (params : GetParticipantsParams) :
    GetParticipantsResult × WebState :=
  let errs := params.check
  if errs = [] then
    match mapGet st params.sessionId with
    | none =>
      ({ participants := [],
         errors := ["session " ++ params.sessionId ++ " does not exist"] },
        st)
    | some s => ({ participants := mapVals s.participants, errors := [] }, st)
  else ({ participants := [], errors := errs }, st)

end WebRtcSessionHandler

/-! ## Concrete fixtures -/

/-- A format-valid (canonical) UUID, as `checkSessionId` accepts. -/
def zeroUuid : String := "00000000-0000-0000-0000-000000000000"

/-- A 10-byte id containing the disallowed character `!`. -/
def badCharId : String := "aaaaaaaaa!"

/-- A registered session used in several concrete states. -/
def sessA : Session :=
  { name := "standup", id := "aaaaaaaaaa", creationDateTime := "t0" }

/-- A WebRtc store holding exactly `sessA` (no participants). -/
def webStA : WebState := [("aaaaaaaaaa", { session := sessA, participants := [] })]

/-! ## Claims -/

/-- Claim C1: the spec says every registry operation completes normally, and
that GetSession/DeleteSession with a format-valid but absent id return a
result with an absent session and no errors rather than faulting.  The mock
handler violates this: with the valid id `zeroUuid` absent from the store,
`checkSessionId` passes, the map lookup yields a nil pointer, and the code
takes `&registeredSession.Session` without a nil check — a nil-pointer
dereference panic, modelled as `none`. -/
theorem c1_mock_get_delete_absent_session_faults :
    checkSessionId zeroUuid = none ∧
    mapGet ([] : MockState) zeroUuid = none ∧
    MockSessionHandler.GetSession [] { id := zeroUuid } = none ∧
    MockSessionHandler.DeleteSession [] { id := zeroUuid } = none := by
  decide

/-- Claim C2: the spec says an id containing a character outside the allowed
charset yields a validation error, never a not-found outcome.  The code
violates this: `badCharId` has byte length `IdLen` and contains the
disallowed `!`, yet the unanchored regexp in `isId` accepts it (some
character lies in the class), so the WebRtc GetSession and DeleteSession
return the not-found outcome — absent session, EMPTY errors. -/
theorem c2_bad_char_id_not_rejected :
    badCharId.utf8ByteSize = IdLen ∧
    '!' ∈ badCharId.data ∧
    idCharOk '!' = false ∧
    (WebRtcSessionHandler.GetSession [] { id := badCharId }).1 =
      { session := none, errors := [] } ∧
    (WebRtcSessionHandler.DeleteSession [] { id := badCharId }).1 =
      { session := none, errors := [] } := by
  decide

/-- Claim C3 counterexample: the mock's AddParticipant with a malformed
sessionId AND a blank name returns exactly one error (it stops at the first
failing check), not one entry per invalid field. -/
theorem c3_counterexample_mock_first_error_only :
    checkSessionId "x" ≠ none ∧
    checkNotBlank " " ≠ none ∧
    ((MockSessionHandler.AddParticipant [] "p1" "t1"
        { sessionId := "x", name := " " }).1.errors).length = 1 := by
  decide

/-- Claim C3 amended: in the WebRtcSessionHandler, whose parameter records'
`check` methods collect errors, the returned errors list contains one entry
per invalid field — here AddParticipant with a malformed sessionId and a
blank name, and UpdateParticipant with two malformed ids and a blank
name. -/
theorem c3_webrtc_reports_every_invalid_field
    (stA stU : WebState) (genId now : String)
    (p : AddParticipantParams) (e1 e2 : String)
    (h1 : isId "sessionId" p.sessionId = some e1)
    (h2 : isNotBlank "name" p.name = some e2)
    (q : UpdateParticipantParams) (f1 f2 f3 : String)
    (g1 : isId "sessionId" q.sessionId = some f1)
    (g2 : isId "participantId" q.participantId = some f2)
    (g3 : isNotBlank "name" q.name = some f3) :
    (WebRtcSessionHandler.AddParticipant stA genId now p).1 =
      { participant := none, errors := [e1, e2] } ∧
    (WebRtcSessionHandler.UpdateParticipant stU q).1 =
      { participant := none, errors := [f1, f2, f3] } := by
  constructor
  · simp [WebRtcSessionHandler.AddParticipant, AddParticipantParams.check,
      h1, h2]
  · simp [WebRtcSessionHandler.UpdateParticipant,
      UpdateParticipantParams.check, g1, g2, g3]

theorem c3_webrtc_reports_every_invalid_field_witness :
    isId "sessionId" "x" = some "x must be a valid id" ∧
    isNotBlank "name" " " = some "name must not be blank" ∧
    isId "participantId" "y" = some "y must be a valid id" ∧
    (WebRtcSessionHandler.AddParticipant [] "p1" "t1"
        { sessionId := "x", name := " " }).1 =
      { participant := none,
        errors := ["x must be a valid id", "name must not be blank"] } ∧
    (WebRtcSessionHandler.UpdateParticipant []
        { sessionId := "x", participantId := "y", name := " " }).1 =
      { participant := none,
        errors := ["x must be a valid id", "y must be a valid id",
          "name must not be blank"] } :=
  ⟨by decide, by decide, by decide,
    (c3_webrtc_reports_every_invalid_field [] [] "p1" "t1"
        { sessionId := "x", name := " " }
        "x must be a valid id" "name must not be blank"
        (by decide) (by decide)
        { sessionId := "x", participantId := "y", name := " " }
        "x must be a valid id" "y must be a valid id"
        "name must not be blank"
        (by decide) (by decide) (by decide)).1,
    (c3_webrtc_reports_every_invalid_field [] [] "p1" "t1"
        { sessionId := "x", name := " " }
        "x must be a valid id" "name must not be blank"
        (by decide) (by decide)
        { sessionId := "x", participantId := "y", name := " " }
        "x must be a valid id" "y must be a valid id"
        "name must not be blank"
        (by decide) (by decide) (by decide)).2⟩

/-- Claim C4 counterexample: the mock's GetParticipant performs no format
validation at all — called with the malformed session id "x" it returns the
existence-based "session x does not exist" error, which the claim says can
never happen for a malformed sessionId. -/
theorem c4_counterexample_mock_skips_validation :
    checkSessionId "x" ≠ none ∧
    isId "sessionId" "x" ≠ none ∧
    (MockSessionHandler.GetParticipant []
        { sessionId := "x", participantId := "y" }).1.errors =
      ["session x does not exist"] := by
  decide

/-- Claim C4 amended: the WebRtcSessionHandler validates all parameters
before any store lookup — whenever a parameter record's `check` reports
errors, GetParticipant, UpdateParticipant and DeleteParticipant return
exactly those validation errors, no payload, and leave the store
untouched (so no existence-based outcome is produced).  The mock variant
does not behave this way. -/
theorem c4_webrtc_validation_before_lookup
    (st : WebState) (gp : GetParticipantParams)
    (up : UpdateParticipantParams) (dp : DeleteParticipantParams)
    (hg : gp.check ≠ []) (hu : up.check ≠ []) (hd : dp.check ≠ []) :
    WebRtcSessionHandler.GetParticipant st gp =
      ({ participant := none, errors := gp.check }, st) ∧
    WebRtcSessionHandler.UpdateParticipant st up =
      ({ participant := none, errors := up.check }, st) ∧
    WebRtcSessionHandler.DeleteParticipant st dp =
      ({ participant := none, errors := dp.check }, st) := by
  refine ⟨?_, ?_, ?_⟩
  · simp [WebRtcSessionHandler.GetParticipant, hg]
  · simp [WebRtcSessionHandler.UpdateParticipant, hu]
  · simp [WebRtcSessionHandler.DeleteParticipant, hd]

theorem c4_webrtc_validation_before_lookup_witness :
    (GetParticipantParams.check { sessionId := "x", participantId := "y" } ≠ []) ∧
    (UpdateParticipantParams.check
      { sessionId := "x", participantId := "y", name := "alice" } ≠ []) ∧
    (DeleteParticipantParams.check { sessionId := "x", participantId := "y" } ≠ []) ∧
    (WebRtcSessionHandler.GetParticipant webStA
        { sessionId := "x", participantId := "y" } =
      ({ participant := none,
         errors := GetParticipantParams.check
           { sessionId := "x", participantId := "y" } }, webStA)) ∧
    (WebRtcSessionHandler.UpdateParticipant webStA
        { sessionId := "x", participantId := "y", name := "alice" } =
      ({ participant := none,
         errors := UpdateParticipantParams.check
           { sessionId := "x", participantId := "y", name := "alice" } }, webStA)) ∧
    (WebRtcSessionHandler.DeleteParticipant webStA
        { sessionId := "x", participantId := "y" } =
      ({ participant := none,
         errors := DeleteParticipantParams.check
           { sessionId := "x", participantId := "y" } }, webStA)) :=
  ⟨by decide, by decide, by decide,
    (c4_webrtc_validation_before_lookup webStA
        { sessionId := "x", participantId := "y" }
        { sessionId := "x", participantId := "y", name := "alice" }
        { sessionId := "x", participantId := "y" }
        (by decide) (by decide) (by decide)).1,
    (c4_webrtc_validation_before_lookup webStA
        { sessionId := "x", participantId := "y" }
        { sessionId := "x", participantId := "y", name := "alice" }
        { sessionId := "x", participantId := "y" }
        (by decide) (by decide) (by decide)).2.1,
    (c4_webrtc_validation_before_lookup webStA
        { sessionId := "x", participantId := "y" }
        { sessionId := "x", participantId := "y", name := "alice" }
        { sessionId := "x", participantId := "y" }
        (by decide) (by decide) (by decide)).2.2⟩

/-- Claim C5 counterexample: with session "aaaaaaaaaa" registered, calling
the WebRtc GetParticipant with the participant id "" — a participantId that
is certainly not present in the session's (empty) participant set — returns
a NON-empty errors list (a validation error), not the claimed quiet miss
with an empty errors list. -/
theorem c5_counterexample_malformed_participant_id :
    mapGet webStA "aaaaaaaaaa" ≠ none ∧
    (WebRtcSessionHandler.GetParticipant webStA
        { sessionId := "aaaaaaaaaa", participantId := "" }).1.errors ≠ [] := by
  decide

/-- Claim C5 amended: restricted to participantIds that pass the id-format
validation (and, for UpdateParticipant, a non-blank name — malformed
parameters yield a validation error instead, per the validation-first rule),
GetParticipant, UpdateParticipant and DeleteParticipant against a registered
session and a participantId absent from its participant set return no
participant and an EMPTY errors list and leave the store unchanged; in the
mock variant GetParticipant and DeleteParticipant do so for every absent
participantId (they skip validation) and UpdateParticipant for every
non-blank name. -/
theorem c5_missing_participant_quiet_miss
    (stw : WebState) (sid pid nm : String) (s : WebRtcSession)
    (hsid : isId "sessionId" sid = none)
    (hpid : isId "participantId" pid = none)
    (hnm : isNotBlank "name" nm = none)
    (hs : mapGet stw sid = some s)
    (hmiss : mapGet s.participants pid = none)
    (stm : MockState) (sid2 pid2 nm2 : String) (rs : RegisteredSession)
    (hnm2 : checkNotBlank nm2 = none)
    (hs2 : mapGet stm sid2 = some rs)
    (hmiss2 : mapGet rs.participants pid2 = none) :
    (WebRtcSessionHandler.GetParticipant stw
        { sessionId := sid, participantId := pid } =
      ({ participant := none, errors := [] }, stw)) ∧
    (WebRtcSessionHandler.UpdateParticipant stw
        { sessionId := sid, participantId := pid, name := nm } =
      ({ participant := none, errors := [] }, stw)) ∧
    (WebRtcSessionHandler.DeleteParticipant stw
        { sessionId := sid, participantId := pid } =
      ({ participant := none, errors := [] }, stw)) ∧
    (MockSessionHandler.GetParticipant stm
        { sessionId := sid2, participantId := pid2 } =
      ({ participant := none, errors := [] }, stm)) ∧
    (MockSessionHandler.UpdateParticipant stm
        { sessionId := sid2, participantId := pid2, name := nm2 } =
      ({ participant := none, errors := [] }, stm)) ∧
    (MockSessionHandler.DeleteParticipant stm
        { sessionId := sid2, participantId := pid2 } =
      ({ participant := none, errors := [] }, stm)) := by
  refine ⟨?_, ?_, ?_, ?_, ?_, ?_⟩
  · simp [WebRtcSessionHandler.GetParticipant, GetParticipantParams.check,
      hsid, hpid, hs, hmiss]
  · simp [WebRtcSessionHandler.UpdateParticipant,
      UpdateParticipantParams.check, hsid, hpid, hnm, hs, hmiss]
  · simp [WebRtcSessionHandler.DeleteParticipant,
      DeleteParticipantParams.check, hsid, hpid, hs, hmiss]
  · simp [MockSessionHandler.GetParticipant, hs2, hmiss2]
  · simp [MockSessionHandler.UpdateParticipant, hnm2, hs2, hmiss2]
  · simp [MockSessionHandler.DeleteParticipant, hs2, hmiss2]

/-- A mock store holding exactly `sessA` under the valid UUID `zeroUuid`
(no participants). -/
def mockStA : MockState :=
  [(zeroUuid, { session := sessA, participants := [] })]

theorem c5_missing_participant_quiet_miss_witness :
    (isId "participantId" "bbbbbbbbbb" = none) ∧
    (mapGet webStA "aaaaaaaaaa" ≠ none) ∧
    (mapGet mockStA zeroUuid ≠ none) ∧
    (WebRtcSessionHandler.GetParticipant webStA
        { sessionId := "aaaaaaaaaa", participantId := "bbbbbbbbbb" } =
      ({ participant := none, errors := [] }, webStA)) ∧
    (WebRtcSessionHandler.UpdateParticipant webStA
        { sessionId := "aaaaaaaaaa", participantId := "bbbbbbbbbb",
          name := "alice" } =
      ({ participant := none, errors := [] }, webStA)) ∧
    (MockSessionHandler.DeleteParticipant mockStA
        { sessionId := zeroUuid, participantId := "whatever" } =
      ({ participant := none, errors := [] }, mockStA)) :=
  ⟨by decide, by decide, by decide,
    (c5_missing_participant_quiet_miss webStA "aaaaaaaaaa" "bbbbbbbbbb"
        "alice" { session := sessA, participants := [] }
        (by decide) (by decide) (by decide) (by decide) (by decide)
        mockStA zeroUuid "whatever" "bob"
        { session := sessA, participants := [] }
        (by decide) (by decide) (by decide)).1,
    (c5_missing_participant_quiet_miss webStA "aaaaaaaaaa" "bbbbbbbbbb"
        "alice" { session := sessA, participants := [] }
        (by decide) (by decide) (by decide) (by decide) (by decide)
        mockStA zeroUuid "whatever" "bob"
        { session := sessA, participants := [] }
        (by decide) (by decide) (by decide)).2.1,
    (c5_missing_participant_quiet_miss webStA "aaaaaaaaaa" "bbbbbbbbbb"
        "alice" { session := sessA, participants := [] }
        (by decide) (by decide) (by decide) (by decide) (by decide)
        mockStA zeroUuid "whatever" "bob"
        { session := sessA, participants := [] }
        (by decide) (by decide) (by decide)).2.2.2.2.2⟩

/-- Claim C6: UpdateParticipant on a registered session and present
participant with a valid new name sets only the participant's name — its
id, sessionId and creationDateTime are kept — leaves the surrounding
session record intact, every other participant of the session intact, and
every other session intact; shown for both handler variants. -/
theorem c6_update_participant_only_name
    (stw : WebState) (sid pid nm : String) (s : WebRtcSession)
    (old : Participant)
    (hsid : isId "sessionId" sid = none)
    (hpid : isId "participantId" pid = none)
    (hnm : isNotBlank "name" nm = none)
    (hs : mapGet stw sid = some s)
    (hp : mapGet s.participants pid = some old)
    (stm : MockState) (sid2 pid2 nm2 : String) (rs : RegisteredSession)
    (old2 : Participant)
    (hnm2 : checkNotBlank nm2 = none)
    (hs2 : mapGet stm sid2 = some rs)
    (hp2 : mapGet rs.participants pid2 = some old2) :
    ((WebRtcSessionHandler.UpdateParticipant stw
        { sessionId := sid, participantId := pid, name := nm }).1 =
      { participant := some { name := nm, id := old.id,
                              sessionId := old.sessionId,
                              creationDateTime := old.creationDateTime },
        errors := [] }) ∧
    (mapGet (WebRtcSessionHandler.UpdateParticipant stw
        { sessionId := sid, participantId := pid, name := nm }).2 sid =
      some { session := s.session,
             participants := mapPut s.participants pid
               { old with name := nm } }) ∧
    (∀ k, k ≠ sid →
      mapGet (WebRtcSessionHandler.UpdateParticipant stw
        { sessionId := sid, participantId := pid, name := nm }).2 k =
      mapGet stw k) ∧
    (∀ k, k ≠ pid →
      mapGet (mapPut s.participants pid { old with name := nm }) k =
      mapGet s.participants k) ∧
    ((MockSessionHandler.UpdateParticipant stm
        { sessionId := sid2, participantId := pid2, name := nm2 }).1 =
      { participant := some { name := nm2, id := old2.id,
                              sessionId := old2.sessionId,
                              creationDateTime := old2.creationDateTime },
        errors := [] }) ∧
    (mapGet (MockSessionHandler.UpdateParticipant stm
        { sessionId := sid2, participantId := pid2, name := nm2 }).2 sid2 =
      some { session := rs.session,
             participants := mapPut rs.participants pid2
               { old2 with name := nm2 } }) ∧
    (∀ k, k ≠ sid2 →
      mapGet (MockSessionHandler.UpdateParticipant stm
        { sessionId := sid2, participantId := pid2, name := nm2 }).2 k =
      mapGet stm k) ∧
    (∀ k, k ≠ pid2 →
      mapGet (mapPut rs.participants pid2 { old2 with name := nm2 }) k =
      mapGet rs.participants k) := by
  have hw : WebRtcSessionHandler.UpdateParticipant stw
      { sessionId := sid, participantId := pid, name := nm } =
      ({ participant := some { old with name := nm }, errors := [] },
        mapPut stw sid
          { s with participants :=
                     mapPut s.participants pid { old with name := nm } }) := by
    simp [WebRtcSessionHandler.UpdateParticipant,
      UpdateParticipantParams.check, hsid, hpid, hnm, hs, hp]
  have hm : MockSessionHandler.UpdateParticipant stm
      { sessionId := sid2, participantId := pid2, name := nm2 } =
      ({ participant := some { old2 with name := nm2 }, errors := [] },
        mapPut stm sid2
          { rs with participants :=
                      mapPut rs.participants pid2 { old2 with name := nm2 } }) := by
    simp [MockSessionHandler.UpdateParticipant, hnm2, hs2, hp2]
  refine ⟨?_, ?_, ?_, ?_, ?_, ?_, ?_, ?_⟩
  · rw [hw]
  · rw [hw]
    exact mapGet_mapPut_self stw sid _
  · intro k hk
    rw [hw]
    exact mapGet_mapPut_other stw sid k _ hk
  · intro k hk
    exact mapGet_mapPut_other s.participants pid k _ hk
  · rw [hm]
  · rw [hm]
    exact mapGet_mapPut_self stm sid2 _
  · intro k hk
    rw [hm]
    exact mapGet_mapPut_other stm sid2 k _ hk
  · intro k hk
    exact mapGet_mapPut_other rs.participants pid2 k _ hk

/-- A second registered session, distinct from `sessA`. -/
def sessD : Session :=
  { name := "retro", id := "dddddddddd", creationDateTime := "t2" }

/-- A participant of `sessA`. -/
def partP : Participant :=
  { name := "alice", id := "cccccccccc", sessionId := "aaaaaaaaaa",
    creationDateTime := "t1" }

/-- A WebRtc store with two sessions, `sessA` holding participant `partP`. -/
def webStB : WebState :=
  [("aaaaaaaaaa",
    { session := sessA, participants := [("cccccccccc", partP)] }),
   ("dddddddddd", { session := sessD, participants := [] })]

/-- A mock store with `sessA` (holding `partP`) under the UUID key. -/
def mockStB : MockState :=
  [(zeroUuid, { session := sessA, participants := [("cccccccccc", partP)] })]

theorem c6_update_participant_only_name_witness :
    (isId "participantId" "cccccccccc" = none) ∧
    (mapGet webStB "aaaaaaaaaa" =
      some { session := sessA, participants := [("cccccccccc", partP)] }) ∧
    ((WebRtcSessionHandler.UpdateParticipant webStB
        { sessionId := "aaaaaaaaaa", participantId := "cccccccccc",
          name := "alice2" }).1 =
      { participant := some { name := "alice2", id := "cccccccccc",
                              sessionId := "aaaaaaaaaa",
                              creationDateTime := "t1" },
        errors := [] }) ∧
    (mapGet (WebRtcSessionHandler.UpdateParticipant webStB
        { sessionId := "aaaaaaaaaa", participantId := "cccccccccc",
          name := "alice2" }).2 "dddddddddd" = mapGet webStB "dddddddddd") ∧
    ((MockSessionHandler.UpdateParticipant mockStB
        { sessionId := zeroUuid, participantId := "cccccccccc",
          name := "alice2" }).1 =
      { participant := some { name := "alice2", id := "cccccccccc",
                              sessionId := "aaaaaaaaaa",
                              creationDateTime := "t1" },
        errors := [] }) :=
  ⟨by decide, by decide,
    (c6_update_participant_only_name webStB "aaaaaaaaaa" "cccccccccc" "alice2"
        { session := sessA, participants := [("cccccccccc", partP)] } partP
        (by decide) (by decide) (by decide) (by decide) (by decide)
        mockStB zeroUuid "cccccccccc" "alice2"
        { session := sessA, participants := [("cccccccccc", partP)] } partP
        (by decide) (by decide) (by decide)).1,
    (c6_update_participant_only_name webStB "aaaaaaaaaa" "cccccccccc" "alice2"
        { session := sessA, participants := [("cccccccccc", partP)] } partP
        (by decide) (by decide) (by decide) (by decide) (by decide)
        mockStB zeroUuid "cccccccccc" "alice2"
        { session := sessA, participants := [("cccccccccc", partP)] } partP
        (by decide) (by decide) (by decide)).2.2.1 "dddddddddd" (by decide),
    (c6_update_participant_only_name webStB "aaaaaaaaaa" "cccccccccc" "alice2"
        { session := sessA, participants := [("cccccccccc", partP)] } partP
        (by decide) (by decide) (by decide) (by decide) (by decide)
        mockStB zeroUuid "cccccccccc" "alice2"
        { session := sessA, participants := [("cccccccccc", partP)] } partP
        (by decide) (by decide) (by decide)).2.2.2.2.1⟩

/-- Claim C7: AddParticipant with a format-valid but unregistered sessionId
and a valid name returns exactly the "session ... does not exist" error, no
participant, and leaves the store exactly as it was; shown for both
variants (each with its own notion of format-valid id). -/
theorem c7_add_participant_nonexistent_session
    (stw : WebState) (genId now sid nm : String)
    (hsid : isId "sessionId" sid = none)
    (hnm : isNotBlank "name" nm = none)
    (habs : mapGet stw sid = none)
    (stm : MockState) (genId2 now2 sid2 nm2 : String)
    (hsid2 : checkSessionId sid2 = none)
    (hnm2 : checkNotBlank nm2 = none)
    (habs2 : mapGet stm sid2 = none) :
    (WebRtcSessionHandler.AddParticipant stw genId now
        { sessionId := sid, name := nm } =
      ({ participant := none,
         errors := ["session " ++ sid ++ " does not exist"] }, stw)) ∧
    (MockSessionHandler.AddParticipant stm genId2 now2
        { sessionId := sid2, name := nm2 } =
      ({ participant := none,
         errors := ["session " ++ sid2 ++ " does not exist"] }, stm)) := by
  constructor
  · simp [WebRtcSessionHandler.AddParticipant, AddParticipantParams.check,
      hsid, hnm, habs]
  · simp [MockSessionHandler.AddParticipant, hsid2, hnm2, habs2]

theorem c7_add_participant_nonexistent_session_witness :
    (isId "sessionId" "bbbbbbbbbb" = none) ∧
    (isNotBlank "name" "alice" = none) ∧
    (mapGet webStA "bbbbbbbbbb" = none) ∧
    (checkSessionId zeroUuid = none) ∧
    (WebRtcSessionHandler.AddParticipant webStA "p1" "t1"
        { sessionId := "bbbbbbbbbb", name := "alice" } =
      ({ participant := none,
         errors := ["session " ++ "bbbbbbbbbb" ++ " does not exist"] },
        webStA)) ∧
    (MockSessionHandler.AddParticipant [] "p2" "t2"
        { sessionId := zeroUuid, name := "alice" } =
      ({ participant := none,
         errors := ["session " ++ zeroUuid ++ " does not exist"] }, [])) :=
  ⟨by decide, by decide, by decide, by decide,
    (c7_add_participant_nonexistent_session webStA "p1" "t1" "bbbbbbbbbb"
        "alice" (by decide) (by decide) (by decide)
        [] "p2" "t2" zeroUuid "alice"
        (by decide) (by decide) (by decide)).1,
    (c7_add_participant_nonexistent_session webStA "p1" "t1" "bbbbbbbbbb"
        "alice" (by decide) (by decide) (by decide)
        [] "p2" "t2" zeroUuid "alice"
        (by decide) (by decide) (by decide)).2⟩

/-- Claim C8 counterexample: CreateSession performs no collision check on the
generated id — when the generator returns the already-registered id
"aaaaaaaaaa", the created session's id EQUALS a currently-registered
session's id (and silently overwrites it), refuting the claim that the
generated id always differs from every registered one. -/
theorem c8_counterexample_generated_id_collision :
    mapGet webStA "aaaaaaaaaa" = some { session := sessA, participants := [] } ∧
    (WebRtcSessionHandler.CreateSession webStA "aaaaaaaaaa" "t1"
        { name := "retro" }).1.session =
      some { name := "retro", id := "aaaaaaaaaa", creationDateTime := "t1" } ∧
    mapGet (WebRtcSessionHandler.CreateSession webStA "aaaaaaaaaa" "t1"
        { name := "retro" }).2 "aaaaaaaaaa" =
      some { session := { name := "retro", id := "aaaaaaaaaa",
                          creationDateTime := "t1" },
             participants := [] } := by
  decide

/-- Claim C8 amended: PROVIDED the generated id is not already registered
(the code relies on the generator's practical uniqueness and never checks),
CreateSession with a valid name returns a session carrying that id — hence
an id different from every currently-registered key — and an immediately
subsequent GetSession with it returns that same session with no errors;
shown for both variants. -/
theorem c8_create_session_fresh_then_get
    (stw : WebState) (genId now nm : String)
    (hnm : isNotBlank "name" nm = none)
    (hid : isId "id" genId = none)
    (hfresh : mapGet stw genId = none)
    (stm : MockState) (genId2 now2 nm2 : String)
    (hnm2 : checkNotBlank nm2 = none)
    (hid2 : checkSessionId genId2 = none)
    (hfresh2 : mapGet stm genId2 = none) :
    (∀ k, mapGet stw k ≠ none → genId ≠ k) ∧
    ((WebRtcSessionHandler.CreateSession stw genId now { name := nm }).1 =
      { session := some { name := nm, id := genId, creationDateTime := now },
        errors := [] }) ∧
    ((WebRtcSessionHandler.GetSession
        (WebRtcSessionHandler.CreateSession stw genId now { name := nm }).2
        { id := genId }).1 =
      { session := some { name := nm, id := genId, creationDateTime := now },
        errors := [] }) ∧
    (∀ k, mapGet stm k ≠ none → genId2 ≠ k) ∧
    ((MockSessionHandler.CreateSession stm genId2 now2 { name := nm2 }).1 =
      { session := some { name := nm2, id := genId2,
                          creationDateTime := now2 },
        errors := [] }) ∧
    (MockSessionHandler.GetSession
        (MockSessionHandler.CreateSession stm genId2 now2 { name := nm2 }).2
        { id := genId2 } =
      some ({ session := some { name := nm2, id := genId2,
                                creationDateTime := now2 },
              errors := [] },
        (MockSessionHandler.CreateSession stm genId2 now2
          { name := nm2 }).2)) := by
  have hcw : WebRtcSessionHandler.CreateSession stw genId now { name := nm } =
      ({ session := some { name := nm, id := genId,
                           creationDateTime := now },
         errors := [] },
        mapPut stw genId
          { session := { name := nm, id := genId, creationDateTime := now },
            participants := [] }) := by
    simp [WebRtcSessionHandler.CreateSession, CreateSessionParams.check,
      WebRtcSessionHandler.newSession, hnm]
  have hcm : MockSessionHandler.CreateSession stm genId2 now2
      { name := nm2 } =
      ({ session := some { name := nm2, id := genId2,
                           creationDateTime := now2 },
         errors := [] },
        mapPut stm genId2
          { session := { name := nm2, id := genId2,
                         creationDateTime := now2 },
            participants := [] }) := by
    simp [MockSessionHandler.CreateSession, hnm2]
  refine ⟨?_, ?_, ?_, ?_, ?_, ?_⟩
  · intro k hk heq
    exact hk (heq ▸ hfresh)
  · rw [hcw]
  · rw [hcw]
    simp [WebRtcSessionHandler.GetSession, GetSessionParams.check, hid,
      mapGet_mapPut_self]
  · intro k hk heq
    exact hk (heq ▸ hfresh2)
  · rw [hcm]
  · rw [hcm]
    simp [MockSessionHandler.GetSession, hid2, mapGet_mapPut_self]

theorem c8_create_session_fresh_then_get_witness :
    (isNotBlank "name" "standup" = none) ∧
    (isId "id" "bbbbbbbbbb" = none) ∧
    (mapGet webStA "bbbbbbbbbb" = none) ∧
    (mapGet webStA "aaaaaaaaaa" ≠ none) ∧
    ("bbbbbbbbbb" ≠ "aaaaaaaaaa") ∧
    ((WebRtcSessionHandler.CreateSession webStA "bbbbbbbbbb" "t3"
        { name := "standup" }).1 =
      { session := some { name := "standup", id := "bbbbbbbbbb",
                          creationDateTime := "t3" },
        errors := [] }) ∧
    ((WebRtcSessionHandler.GetSession
        (WebRtcSessionHandler.CreateSession webStA "bbbbbbbbbb" "t3"
          { name := "standup" }).2 { id := "bbbbbbbbbb" }).1 =
      { session := some { name := "standup", id := "bbbbbbbbbb",
                          creationDateTime := "t3" },
        errors := [] }) :=
  ⟨by decide, by decide, by decide, by decide,
    (c8_create_session_fresh_then_get webStA "bbbbbbbbbb" "t3" "standup"
        (by decide) (by decide) (by decide)
        [] "11111111-1111-1111-1111-111111111111" "t4" "retro"
        (by decide) (by decide) (by decide)).1 "aaaaaaaaaa" (by decide),
    (c8_create_session_fresh_then_get webStA "bbbbbbbbbb" "t3" "standup"
        (by decide) (by decide) (by decide)
        [] "11111111-1111-1111-1111-111111111111" "t4" "retro"
        (by decide) (by decide) (by decide)).2.1,
    (c8_create_session_fresh_then_get webStA "bbbbbbbbbb" "t3" "standup"
        (by decide) (by decide) (by decide)
        [] "11111111-1111-1111-1111-111111111111" "t4" "retro"
        (by decide) (by decide) (by decide)).2.2.1⟩

/-- Claim C9 counterexample: the two variants are NOT observationally
equivalent — on the same empty store, GetSession with the id "aaaaaaaaaa"
(10 characters: not a parseable UUID, but accepted by `isId`) yields a
validation error from the mock and a clean not-found result (empty errors)
from the WebRtc handler. -/
theorem c9_counterexample_handlers_disagree :
    ((MockSessionHandler.GetSession [] { id := "aaaaaaaaaa" }).map
        (fun r => decide (r.1.errors = []))) = some false ∧
    (WebRtcSessionHandler.GetSession [] { id := "aaaaaaaaaa" }).1.errors =
      [] := by
  decide

/-- Claim C9 amended: the variants are not observationally equivalent (they
disagree on id validation, on error collection, and the mock faults where
the other returns not-found); they DO agree on CreateSession — for every
input, every pair of stores and the same generation oracles, both return
the identical result record. -/
theorem c9_create_session_observational_agreement
    (stm : MockState) (stw : WebState) (genId now : String)
    (p : CreateSessionParams) :
    (MockSessionHandler.CreateSession stm genId now p).1 =
    (WebRtcSessionHandler.CreateSession stw genId now p).1 := by
  by_cases h : (trimSpace p.name).length == 0
  · simp [MockSessionHandler.CreateSession,
      WebRtcSessionHandler.CreateSession, CreateSessionParams.check,
      checkNotBlank, isNotBlank, h]
  · simp [MockSessionHandler.CreateSession,
      WebRtcSessionHandler.CreateSession, CreateSessionParams.check,
      checkNotBlank, isNotBlank, WebRtcSessionHandler.newSession, h]


/-- Claim C10: names are not unique keys anywhere in the registry — in BOTH
handler variants, CreateSession succeeds for a name already carried by a
registered session and yields a second session distinguished only by its
id, and AddParticipant succeeds for a name already carried by a participant
of the same session, both participants remaining present with distinct ids
(the generated ids are assumed fresh, which is all the generator
guarantees). -/
theorem c10_names_are_not_unique_keys
    (stw : WebState) (k genId now nm : String) (s : WebRtcSession)
    (hnm : isNotBlank "name" nm = none)
    (hreg : mapGet stw k = some s)
    (hname : s.session.name = nm)
    (hfresh : mapGet stw genId = none)
    (stw2 : WebState) (sid pid now2 nm2 qk : String) (s2 : WebRtcSession)
    (q : Participant)
    (hsid : isId "sessionId" sid = none)
    (hnm2 : isNotBlank "name" nm2 = none)
    (hs2 : mapGet stw2 sid = some s2)
    (hq : mapGet s2.participants qk = some q)
    (hqname : q.name = nm2)
    (hpfresh : mapGet s2.participants pid = none)
    (stm : MockState) (mk mgenId mnow mnm : String) (ms : RegisteredSession)
    (hmnm : checkNotBlank mnm = none)
    (hmreg : mapGet stm mk = some ms)
    (hmname : ms.session.name = mnm)
    (hmfresh : mapGet stm mgenId = none)
    (stm2 : MockState) (msid mpid mnow2 mnm2 mqk : String)
    (ms2 : RegisteredSession) (mq : Participant)
    (hmsid : checkSessionId msid = none)
    (hmnm2 : checkNotBlank mnm2 = none)
    (hms2 : mapGet stm2 msid = some ms2)
    (hmq : mapGet ms2.participants mqk = some mq)
    (hmqname : mq.name = mnm2)
    (hmpfresh : mapGet ms2.participants mpid = none) :
    (genId ≠ k) ∧
    ((WebRtcSessionHandler.CreateSession stw genId now { name := nm }).1 =
      { session := some { name := nm, id := genId, creationDateTime := now },
        errors := [] }) ∧
    (mapGet (WebRtcSessionHandler.CreateSession stw genId now
        { name := nm }).2 k = some s) ∧
    (mapGet (WebRtcSessionHandler.CreateSession stw genId now
        { name := nm }).2 genId =
      some { session := { name := nm, id := genId,
                          creationDateTime := now },
             participants := [] }) ∧
    (pid ≠ qk) ∧
    ((WebRtcSessionHandler.AddParticipant stw2 pid now2
        { sessionId := sid, name := nm2 }).1 =
      { participant := some { name := nm2, id := pid, sessionId := sid,
                              creationDateTime := now2 },
        errors := [] }) ∧
    (mapGet (WebRtcSessionHandler.AddParticipant stw2 pid now2
        { sessionId := sid, name := nm2 }).2 sid =
      some { session := s2.session,
             participants :=
               mapPut s2.participants pid
                 { name := nm2, id := pid, sessionId := sid,
                   creationDateTime := now2 } }) ∧
    (mapGet (mapPut s2.participants pid
        { name := nm2, id := pid, sessionId := sid,
          creationDateTime := now2 }) qk = some q) ∧
    (mapGet (mapPut s2.participants pid
        { name := nm2, id := pid, sessionId := sid,
          creationDateTime := now2 }) pid =
      some { name := nm2, id := pid, sessionId := sid,
             creationDateTime := now2 }) ∧
    (mgenId ≠ mk) ∧
    ((MockSessionHandler.CreateSession stm mgenId mnow { name := mnm }).1 =
      { session := some { name := mnm, id := mgenId,
                          creationDateTime := mnow },
        errors := [] }) ∧
    (mapGet (MockSessionHandler.CreateSession stm mgenId mnow
        { name := mnm }).2 mk = some ms) ∧
    (mapGet (MockSessionHandler.CreateSession stm mgenId mnow
        { name := mnm }).2 mgenId =
      some { session := { name := mnm, id := mgenId,
                          creationDateTime := mnow },
             participants := [] }) ∧
    (mpid ≠ mqk) ∧
    ((MockSessionHandler.AddParticipant stm2 mpid mnow2
        { sessionId := msid, name := mnm2 }).1 =
      { participant := some { name := mnm2, id := mpid,
                              sessionId := ms2.session.id,
                              creationDateTime := mnow2 },
        errors := [] }) ∧
    (mapGet (MockSessionHandler.AddParticipant stm2 mpid mnow2
        { sessionId := msid, name := mnm2 }).2 msid =
      some { session := ms2.session,
             participants :=
               mapPut ms2.participants mpid
                 { name := mnm2, id := mpid, sessionId := ms2.session.id,
                   creationDateTime := mnow2 } }) ∧
    (mapGet (mapPut ms2.participants mpid
        { name := mnm2, id := mpid, sessionId := ms2.session.id,
          creationDateTime := mnow2 }) mqk = some mq) ∧
    (mapGet (mapPut ms2.participants mpid
        { name := mnm2, id := mpid, sessionId := ms2.session.id,
          creationDateTime := mnow2 }) mpid =
      some { name := mnm2, id := mpid, sessionId := ms2.session.id,
             creationDateTime := mnow2 }) := by
  have hne1 : genId ≠ k := by
    intro e
    rw [e, hreg] at hfresh
    exact Option.noConfusion hfresh
  have hne2 : pid ≠ qk := by
    intro e
    rw [e, hq] at hpfresh
    exact Option.noConfusion hpfresh
  have hne3 : mgenId ≠ mk := by
    intro e
    rw [e, hmreg] at hmfresh
    exact Option.noConfusion hmfresh
  have hne4 : mpid ≠ mqk := by
    intro e
    rw [e, hmq] at hmpfresh
    exact Option.noConfusion hmpfresh
  have hcw : WebRtcSessionHandler.CreateSession stw genId now { name := nm } =
      ({ session := some { name := nm, id := genId,
                           creationDateTime := now },
         errors := [] },
        mapPut stw genId
          { session := { name := nm, id := genId, creationDateTime := now },
            participants := [] }) := by
    simp [WebRtcSessionHandler.CreateSession, CreateSessionParams.check,
      WebRtcSessionHandler.newSession, hnm]
  have hca : WebRtcSessionHandler.AddParticipant stw2 pid now2
      { sessionId := sid, name := nm2 } =
      ({ participant := some { name := nm2, id := pid, sessionId := sid,
                               creationDateTime := now2 },
         errors := [] },
        mapPut stw2 sid
          { s2 with participants :=
                      mapPut s2.participants pid
                        { name := nm2, id := pid, sessionId := sid,
                          creationDateTime := now2 } }) := by
    simp [WebRtcSessionHandler.AddParticipant, AddParticipantParams.check,
      WebRtcSessionHandler.newParticipant, hsid, hnm2, hs2]
  have hcm : MockSessionHandler.CreateSession stm mgenId mnow
      { name := mnm } =
      ({ session := some { name := mnm, id := mgenId,
                           creationDateTime := mnow },
         errors := [] },
        mapPut stm mgenId
          { session := { name := mnm, id := mgenId,
                         creationDateTime := mnow },
            participants := [] }) := by
    simp [MockSessionHandler.CreateSession, hmnm]
  have hcam : MockSessionHandler.AddParticipant stm2 mpid mnow2
      { sessionId := msid, name := mnm2 } =
      ({ participant := some { name := mnm2, id := mpid,
                               sessionId := ms2.session.id,
                               creationDateTime := mnow2 },
         errors := [] },
        mapPut stm2 msid
          { ms2 with participants :=
                       mapPut ms2.participants mpid
                         { name := mnm2, id := mpid,
                           sessionId := ms2.session.id,
                           creationDateTime := mnow2 } }) := by
    simp [MockSessionHandler.AddParticipant, hmsid, hmnm2, hms2]
  refine ⟨hne1, ?_, ?_, ?_, hne2, ?_, ?_, ?_, ?_,
    hne3, ?_, ?_, ?_, hne4, ?_, ?_, ?_, ?_⟩
  · rw [hcw]
  · rw [hcw]
    rw [mapGet_mapPut_other stw genId k _ (Ne.symm hne1)]
    exact hreg
  · rw [hcw]
    exact mapGet_mapPut_self stw genId _
  · rw [hca]
  · rw [hca]
    exact mapGet_mapPut_self stw2 sid _
  · rw [mapGet_mapPut_other s2.participants pid qk _ (Ne.symm hne2)]
    exact hq
  · exact mapGet_mapPut_self s2.participants pid _
  · rw [hcm]
  · rw [hcm]
    rw [mapGet_mapPut_other stm mgenId mk _ (Ne.symm hne3)]
    exact hmreg
  · rw [hcm]
    exact mapGet_mapPut_self stm mgenId _
  · rw [hcam]
  · rw [hcam]
    exact mapGet_mapPut_self stm2 msid _
  · rw [mapGet_mapPut_other ms2.participants mpid mqk _ (Ne.symm hne4)]
    exact hmq
  · exact mapGet_mapPut_self ms2.participants mpid _

theorem c10_names_are_not_unique_keys_witness :
    (mapGet webStB "aaaaaaaaaa" =
      some { session := sessA, participants := [("cccccccccc", partP)] }) ∧
    (sessA.name = "standup") ∧
    (partP.name = "alice") ∧
    ("eeeeeeeeee" ≠ "aaaaaaaaaa") ∧
    ((WebRtcSessionHandler.CreateSession webStB "eeeeeeeeee" "t5"
        { name := "standup" }).1 =
      { session := some { name := "standup", id := "eeeeeeeeee",
                          creationDateTime := "t5" },
        errors := [] }) ∧
    (mapGet (WebRtcSessionHandler.CreateSession webStB "eeeeeeeeee" "t5"
        { name := "standup" }).2 "aaaaaaaaaa" =
      some { session := sessA, participants := [("cccccccccc", partP)] }) ∧
    ("ffffffffff" ≠ "cccccccccc") ∧
    ((WebRtcSessionHandler.AddParticipant webStB "ffffffffff" "t6"
        { sessionId := "aaaaaaaaaa", name := "alice" }).1 =
      { participant := some { name := "alice", id := "ffffffffff",
                              sessionId := "aaaaaaaaaa",
                              creationDateTime := "t6" },
        errors := [] }) ∧
    (mapGet (mapPut [("cccccccccc", partP)] "ffffffffff"
        { name := "alice", id := "ffffffffff", sessionId := "aaaaaaaaaa",
          creationDateTime := "t6" }) "cccccccccc" = some partP) ∧
    (mapGet mockStB zeroUuid =
      some { session := sessA, participants := [("cccccccccc", partP)] }) ∧
    ("11111111-1111-1111-1111-111111111111" ≠ zeroUuid) ∧
    ((MockSessionHandler.CreateSession mockStB
        "11111111-1111-1111-1111-111111111111" "t7"
        { name := "standup" }).1 =
      { session := some { name := "standup",
                          id := "11111111-1111-1111-1111-111111111111",
                          creationDateTime := "t7" },
        errors := [] }) ∧
    (mapGet (MockSessionHandler.CreateSession mockStB
        "11111111-1111-1111-1111-111111111111" "t7"
        { name := "standup" }).2 zeroUuid =
      some { session := sessA, participants := [("cccccccccc", partP)] }) ∧
    ("gggggggggg" ≠ "cccccccccc") ∧
    ((MockSessionHandler.AddParticipant mockStB "gggggggggg" "t8"
        { sessionId := zeroUuid, name := "alice" }).1 =
      { participant := some { name := "alice", id := "gggggggggg",
                              sessionId := "aaaaaaaaaa",
                              creationDateTime := "t8" },
        errors := [] }) ∧
    (mapGet (mapPut [("cccccccccc", partP)] "gggggggggg"
        { name := "alice", id := "gggggggggg", sessionId := "aaaaaaaaaa",
          creationDateTime := "t8" }) "cccccccccc" = some partP) := by
  have h := c10_names_are_not_unique_keys webStB "aaaaaaaaaa" "eeeeeeeeee"
    "t5" "standup" { session := sessA, participants := [("cccccccccc", partP)] }
    (by decide) (by decide) (by decide) (by decide)
    webStB "aaaaaaaaaa" "ffffffffff" "t6" "alice" "cccccccccc"
    { session := sessA, participants := [("cccccccccc", partP)] } partP
    (by decide) (by decide) (by decide) (by decide) (by decide) (by decide)
    mockStB zeroUuid "11111111-1111-1111-1111-111111111111" "t7" "standup"
    { session := sessA, participants := [("cccccccccc", partP)] }
    (by decide) (by decide) (by decide) (by decide)
    mockStB zeroUuid "gggggggggg" "t8" "alice" "cccccccccc"
    { session := sessA, participants := [("cccccccccc", partP)] } partP
    (by decide) (by decide) (by decide) (by decide) (by decide) (by decide)
  obtain ⟨a1, a2, a3, a4, a5, a6, a7, a8, a9,
    b1, b2, b3, b4, b5, b6, b7, b8, b9⟩ := h
  exact ⟨by decide, by decide, by decide, a1, a2, a3, a5, a6, a8,
    by decide, b1, b2, b3, b5, b6, b8⟩
